/-
  Verification of the image-transform decision logic of
  adnanalpolink/image-manipulation-app (src/app.py).

  The file shallowly embeds the original logic of the Streamlit script:
  the simple background effects (app.py lines 76-92), the resize planner
  (lines 240-309) and the format-conversion pipeline (lines 432-489).
  Rasters are modelled as a pixel mode tag together with a flat list of
  (r,g,b,a) samples; PIL library primitives that the script calls
  (Image.new, paste-with-mask, convert, save) are embedded from their
  documented per-pixel semantics.  Machine arithmetic: Python ints are
  Nat; `int(x / y)` on nonnegative exact quotients is floor division;
  the float size-delta is computed in ℚ (exact for the ranges involved).
-/
import Mathlib

namespace ImageApp

/-- One pixel sample.  For single-band (grayscale) modes the luminance is
stored replicated across r, g and b; `a` is the alpha sample (255 for
modes without an alpha band). -/
structure Pixel where
  r : Nat
  g : Nat
  b : Nat
  a : Nat
deriving DecidableEq, Repr

/-- In-memory raster: PIL pixel-mode string (e.g. "RGB", "RGBA", "L",
"LA"), size and the flat pixel list (row-major). -/
structure Img where
  mode : String
  width : Nat
  height : Nat
  px : List Pixel
deriving DecidableEq, Repr

/-- PIL's exact division-by-255 with rounding, the MULDIV255 macro:
`t = a*b + 128; ((t >> 8) + t) >> 8`. -/
def muldiv255 (a b : Nat) : Nat :=
  let t := a * b + 128
  (t / 256 + t) / 256

/-- PIL's BLEND macro used by paste-with-mask: mask sample `m` selects
between background sample `bg` (m = 0) and foreground sample `fg`
(m = 255). -/
def blend (m fg bg : Nat) : Nat :=
  muldiv255 bg (255 - m) + muldiv255 fg m

/-- Modes that carry an alpha band. -/
def hasAlphaBand (mode : String) : Bool :=
  mode == "RGBA" || mode == "LA" || mode == "PA"

/-- `Image.new(mode, size, color)`: constant raster. -/
def imageNew (mode : String) (w h : Nat) (color : Pixel) : Img :=
  { mode := mode, width := w, height := h
    px := List.replicate (w * h) color }

/-- `bg.paste(fg, (0,0), mask)` where the mask is `fg`'s own alpha band
(both rasters have the same size in every call site of the script): each
colour band of the background is blended with the foreground under the
alpha mask.  When the background has an alpha band it is blended too;
an alpha-less background stays alpha-less (a = 255 by convention). -/
def pasteMask (bg fg : Img) : Img :=
  { mode := bg.mode, width := bg.width, height := bg.height
    px := List.zipWith
      (fun bp fp =>
        { r := blend fp.a fp.r bp.r
          g := blend fp.a fp.g bp.g
          b := blend fp.a fp.b bp.b
          a := if hasAlphaBand bg.mode then blend fp.a fp.a bp.a else bp.a })
      bg.px fg.px }

/-- `image.convert("RGB")` for the band layouts in play (RGB, RGBA, L,
LA): the alpha band is discarded, the colour bands are kept (grayscale
is stored replicated, which is PIL's L→RGB behaviour). -/
def convertRGB (img : Img) : Img :=
  { mode := "RGB", width := img.width, height := img.height
    px := img.px.map (fun p => { r := p.r, g := p.g, b := p.b, a := 255 }) }

/-- PIL's ITU-R 601-2 luminance, the L24 macro:
`(r*19595 + g*38470 + b*7471 + 0x8000) >> 16`. -/
def lum (p : Pixel) : Nat :=
  (p.r * 19595 + p.g * 38470 + p.b * 7471 + 32768) / 65536

/-- `image.convert("L")`: single band, alpha discarded. -/
def convertL (img : Img) : Img :=
  { mode := "L", width := img.width, height := img.height
    px := img.px.map (fun p =>
      let l := if img.mode == "L" || img.mode == "LA" then p.r else lum p
      { r := l, g := l, b := l, a := 255 }) }

/-- `image.convert("RGBA")`: adds an opaque alpha band when the source
has none. -/
def convertRGBA (img : Img) : Img :=
  { mode := "RGBA", width := img.width, height := img.height
    px := img.px.map (fun p =>
      { r := p.r, g := p.g, b := p.b
        a := if hasAlphaBand img.mode then p.a else 255 }) }

/-! ## Simple background effects (app.py lines 76-92) -/

/-- `apply_simple_background_effect(image, effect_type)`.  The Gaussian
blur is a pure call into the external imaging library with no logic of
its own, so it is passed in as `blurFn`. -/
def apply_simple_background_effect (blurFn : Img → Img)
    (image : Img) (effect_type : String) : Img :=
  if effect_type == "blur" then
    blurFn image
  else if effect_type == "grayscale" then
    convertRGBA (convertL image)
  else if effect_type == "white" then
    let white_bg := imageNew "RGBA" image.width image.height
      { r := 255, g := 255, b := 255, a := 255 }
    if image.mode == "RGBA" then pasteMask white_bg image
    else image
  else image

/-! ## Resize planner (app.py lines 235-309) -/

/-- The three resize input modes of the UI.  In `custom` mode the UI
shows a height field only when the aspect-ratio lock is off; `h` is the
value of that field (ignored under the lock). -/
inductive ResizeRequest where
  | percentage (p : Nat)
  | custom (w h : Nat) (maintain_ratio : Bool)
  | preset (name : String)
deriving DecidableEq, Repr

/-- The fixed preset table (app.py lines 297-307). -/
def preset_sizes : List (String × (Nat × Nat)) :=
  [("Thumbnail (150x150)", (150, 150)),
   ("Small (320x240)", (320, 240)),
   ("Medium (640x480)", (640, 480)),
   ("Large (1024x768)", (1024, 768)),
   ("HD (1920x1080)", (1920, 1080)),
   ("Instagram Square (1080x1080)", (1080, 1080)),
   ("Instagram Portrait (1080x1350)", (1080, 1350)),
   ("Twitter (1200x675)", (1200, 675)),
   ("Facebook Cover (820x312)", (820, 312))]

/-- Target-dimension computation (app.py lines 240-309), a function of
the source size and the request.
* Percentage: `int(width * p / 100)` and `int(height * p / 100)`;
  nonnegative exact quotients, so `int(... / 100)` is floor division.
* Custom with the aspect lock: `aspect_ratio = width / height;`
  `new_height = int(new_width / aspect_ratio)`, i.e. the truncation of
  w * height / width; without the lock both fields verbatim.
* Preset: exact dictionary lookup; an unknown name raises (none).
An unrecognised request leaves the dimensions at the source size (line
240). -/
def resizePlan (W H : Nat) : ResizeRequest → Option (Nat × Nat)
  | .percentage p => some (W * p / 100, H * p / 100)
  | .custom w h maintain_ratio =>
      if maintain_ratio then some (w, w * H / W)
      else some (w, h)
  | .preset name => preset_sizes.lookup name

/-! ## Format conversion (app.py lines 380-489) -/

/-- Entry of the codec-capability table. -/
structure FormatInfo where
  extension : String
  mime : String
  supports_transparency : Bool
deriving DecidableEq, Repr

/-- The fixed codec-capability table (app.py lines 380-387). -/
def formats : List (String × FormatInfo) :=
  [("PNG", { extension := "png", mime := "image/png",
             supports_transparency := true }),
   ("JPEG", { extension := "jpg", mime := "image/jpeg",
              supports_transparency := false }),
   ("WebP", { extension := "webp", mime := "image/webp",
              supports_transparency := true }),
   ("BMP", { extension := "bmp", mime := "image/bmp",
             supports_transparency := false }),
   ("GIF", { extension := "gif", mime := "image/gif",
             supports_transparency := true }),
   ("TIFF", { extension := "tiff", mime := "image/tiff",
              supports_transparency := true })]

/-- `formats[target_format]["supports_transparency"]`; the UI only ever
passes keys of the table, an unknown key is mapped to `true` (no
compositing) here. -/
def supportsTransparency (target_format : String) : Bool :=
  match formats.lookup target_format with
  | some info => info.supports_transparency
  | none => true

/-- One hexadecimal digit. -/
def hexDigit (c : Char) : Nat :=
  let n := c.toNat
  if 48 ≤ n && n ≤ 57 then n - 48
  else if 97 ≤ n && n ≤ 102 then n - 87
  else if 65 ≤ n && n ≤ 70 then n - 55
  else 0

/-- PIL's `ImageColor.getrgb` restricted to the `"#RRGGBB"` strings the
colour-picker widget produces. -/
def getrgb (s : String) : Pixel :=
  match s.toList with
  | ['#', r1, r2, g1, g2, b1, b2] =>
      { r := 16 * hexDigit r1 + hexDigit r2
        g := 16 * hexDigit g1 + hexDigit g2
        b := 16 * hexDigit b1 + hexDigit b2
        a := 255 }
  | _ => { r := 0, g := 0, b := 0, a := 255 }

/-- app.py lines 437-438: `background = Image.new("RGB", image.size,
bg_color); background.paste(image, mask=image.split()[-1])` — the last
band of an RGBA image is its alpha band, so this composites the image
onto the opaque background under its own alpha. -/
def composite (image : Img) (bg_color : Pixel) : Img :=
  pasteMask (imageNew "RGB" image.width image.height bg_color) image

/-- app.py lines 434-441: composite onto the background colour exactly
when the source mode is RGBA and the target codec lacks transparency
support. -/
def transparencyStep (image : Img) (target_format : String)
    (bg_color : Pixel) : Img :=
  if image.mode == "RGBA" && !supportsTransparency target_format then
    composite image bg_color
  else image

/-- app.py lines 452-459: channel-mode coercion before saving — JPEG
requires mode RGB or L, BMP rejects RGBA. -/
def modeCoercion (converted_image : Img) (target_format : String) : Img :=
  if target_format == "JPEG" then
    if converted_image.mode == "RGB" || converted_image.mode == "L" then
      converted_image
    else convertRGB converted_image
  else if target_format == "BMP" then
    if converted_image.mode == "RGBA" then convertRGB converted_image
    else converted_image
  else converted_image

/-- The raster handed to the encoder: transparency handling followed by
channel-mode coercion (app.py lines 434-459). -/
def convertStep (image : Img) (target_format : String)
    (bg_color : Pixel) : Img :=
  modeCoercion (transparencyStep image target_format bg_color) target_format

/-- Pixel modes each PIL writer accepts (from the plugins' SAVE/RAWMODE
tables; the internally-converting writers GIF/WebP/TIFF are given their
effective accepted sets).  Only JPEG, BMP and PNG are exercised by the
theorems below. -/
def saveModes (fmt : String) : List String :=
  if fmt == "JPEG" then ["1", "L", "RGB", "RGBX", "CMYK", "YCbCr"]
  else if fmt == "BMP" then ["1", "L", "P", "RGB", "RGBA"]
  else if fmt == "PNG" then ["1", "L", "LA", "I", "P", "RGB", "RGBA"]
  else if fmt == "GIF" then ["1", "L", "P", "RGB", "RGBA"]
  else if fmt == "WebP" then ["L", "P", "RGB", "RGBA"]
  else ["1", "L", "LA", "I", "P", "RGB", "RGBA", "CMYK", "YCbCr"]

/-- `converted_image.save(output, format=target_format, ...)`: raises a
codec error on an unsupported raster mode (message as PIL formats it);
otherwise encodes.  For a lossless codec the encoded bytes decode back
to exactly the input raster, so the encoder's output is modelled by that
raster; lossy byte content is not modelled further. -/
def save (img : Img) (fmt : String) : Except String Img :=
  if (saveModes fmt).contains img.mode then Except.ok img
  else Except.error ("cannot write mode " ++ img.mode ++ " as " ++ fmt)

/-- app.py line 477: signed percentage size delta, computed exactly. -/
def size_diff (original_size converted_size : Nat) : ℚ :=
  ((converted_size : ℚ) - (original_size : ℚ)) / (original_size : ℚ) * 100

/-- Outcome of one press of the Convert button.  `decodeError` is a
decode failure of corrupt upload bytes at `Image.open` (app.py line
365, before the button handler); `handlerError` is the
`except Exception` branch of the handler (line 489) showing
`"An error occurred during conversion: " + str(e)`; `output` carries
the encoded image and the reported size delta, handed to the download
button. -/
inductive ConvertOutcome where
  | decodeError
  | handlerError (msg : String)
  | output (encoded : Img) (delta : ℚ)
deriving DecidableEq, Repr

/-- Whether an outcome delivers output bytes to the download button. -/
def isOutput : ConvertOutcome → Bool
  | .output _ _ => true
  | _ => false

/-- The conversion flow (app.py lines 365 and 432-489) as a total
function of one upload.  `original_size` is the upload's byte length
and `decoded` the decoder's result on those bytes when they are a
well-formed image: `Image.open` (line 365, before the button handler)
raises on a byte stream it cannot decode, and a zero-length stream is
never decodable, so a zero-length original surfaces the decode failure
and the handler is not reached.  Otherwise the try/except runs the
transparency step, the mode coercion, the save, and the size comparison
whose division raises `ZeroDivisionError` ("division by zero") when
`original_size` is zero — a branch the decode guard makes unreachable.
`encoded_size` is the byte length the external encoder produced. -/
def convertAction (decoded : Option Img) (target_format : String)
    (bg_color : Pixel) (original_size encoded_size : Nat) : ConvertOutcome :=
  if original_size == 0 then ConvertOutcome.decodeError
  else
    match decoded with
    | none => ConvertOutcome.decodeError
    | some image =>
      let converted_image := convertStep image target_format bg_color
      match save converted_image target_format with
      | Except.error e =>
          ConvertOutcome.handlerError ("An error occurred during conversion: " ++ e)
      | Except.ok encoded =>
          if original_size == 0 then
            ConvertOutcome.handlerError
              ("An error occurred during conversion: division by zero")
          else
            ConvertOutcome.output encoded (size_diff original_size encoded_size)

/-! ## Shared lemmas -/

/-- A successful association-list lookup found one of the list's pairs. -/
theorem lookup_mem {α β : Type} [BEq α] [LawfulBEq α] {a : α} {b : β} :
    ∀ {l : List (α × β)}, List.lookup a l = some b → (a, b) ∈ l := by
  intro l
  induction l with
  | nil => intro h; simp [List.lookup] at h
  | cons p es ih =>
      intro h
      obtain ⟨k, v⟩ := p
      simp only [List.lookup] at h
      split at h
      · next heq =>
          cases h
          have hak : a = k := eq_of_beq heq
          subst hak
          exact List.mem_cons_self _ _
      · exact List.mem_cons_of_mem _ (ih h)

/-- Blending with mask 0 returns the background sample. -/
theorem blend_zero_white (fg : Nat) : blend 0 fg 255 = 255 := by
  norm_num [blend, muldiv255]

/-- For an RGBA source and a target codec without transparency support,
the pipeline composites onto the background and the subsequent mode
coercion leaves the composited RGB raster unchanged. -/
theorem rgba_composite_steps (img : Img) (bg : Pixel) (t : String)
    (hm : img.mode = "RGBA") (hs : supportsTransparency t = false) :
    transparencyStep img t bg = composite img bg ∧
    convertStep img t bg = composite img bg := by
  have h1 : transparencyStep img t bg = composite img bg := by
    simp [transparencyStep, hm, hs]
  refine ⟨h1, ?_⟩
  rw [convertStep, h1]
  simp [modeCoercion, composite, pasteMask, imageNew]

/-- Pixel `i` of the composited raster blends pixel `i` of the source
over the background colour under the source's alpha sample. -/
theorem composite_px_get (img : Img) (bg : Pixel) (i : Nat) (p : Pixel)
    (hwf : img.px.length = img.width * img.height)
    (hp : img.px.get? i = some p) :
    (composite img bg).px.get? i =
      some { r := blend p.a p.r bg.r, g := blend p.a p.g bg.g,
             b := blend p.a p.b bg.b, a := bg.a } := by
  obtain ⟨hi, -⟩ := List.get?_eq_some.mp hp
  have hin : i < img.width * img.height := hwf ▸ hi
  have hp2 : img.px[i]? = some p := (List.get?_eq_getElem? _ i) ▸ hp
  simp only [composite, pasteMask, imageNew]
  rw [List.get?_zipWith']
  simp [List.get?_eq_getElem?, List.getElem?_replicate, hin, hp2, hasAlphaBand]

/-! ## Claim theorems -/

/-- C1 (counterexample): the compositing guarantee does not hold for
every source with a transparency channel — an LA-mode (grayscale +
alpha) source converted to JPEG has its fully transparent pixel coerced
to opaque gray with no compositing step ever applied: the transparency
step leaves the image untouched and the raster handed to the encoder
differs from the composited one. -/
theorem c1_alpha_compositing_counterexample :
    hasAlphaBand "LA" = true ∧
    supportsTransparency "JPEG" = false ∧
    transparencyStep
      { mode := "LA", width := 1, height := 1,
        px := [{ r := 7, g := 7, b := 7, a := 0 }] } "JPEG" (getrgb "#FFFFFF") =
      { mode := "LA", width := 1, height := 1,
        px := [{ r := 7, g := 7, b := 7, a := 0 }] } ∧
    convertStep
      { mode := "LA", width := 1, height := 1,
        px := [{ r := 7, g := 7, b := 7, a := 0 }] } "JPEG" (getrgb "#FFFFFF") =
      { mode := "RGB", width := 1, height := 1,
        px := [{ r := 7, g := 7, b := 7, a := 255 }] } ∧
    convertStep
      { mode := "LA", width := 1, height := 1,
        px := [{ r := 7, g := 7, b := 7, a := 0 }] } "JPEG" (getrgb "#FFFFFF") ≠
    modeCoercion
      (composite
        { mode := "LA", width := 1, height := 1,
          px := [{ r := 7, g := 7, b := 7, a := 0 }] } (getrgb "#FFFFFF")) "JPEG" := by
  refine ⟨rfl, rfl, rfl, rfl, ?_⟩
  decide

/-- C1 (amended): for every RGBA-mode source and every target codec
that lacks transparency support, the pipeline composites the image onto
the caller-chosen opaque background before the channel-mode coercion
(the transparency step itself already yields the composited raster),
and the raster handed to the encoder is exactly that composited image —
so for RGBA sources transparency is never dropped without the explicit
compositing step.  (Sources whose alpha lives in another mode, e.g. LA,
are not composited; see the counterexample.) -/
theorem c1_rgba_composites_before_coercion (img : Img) (bg : Pixel)
    (t : String) (hm : img.mode = "RGBA")
    (hs : supportsTransparency t = false) :
    transparencyStep img t bg = composite img bg ∧
    convertStep img t bg = composite img bg :=
  rgba_composite_steps img bg t hm hs

/-- C1 witness: a concrete 1×1 RGBA image converted to JPEG. -/
theorem c1_rgba_composites_before_coercion_witness :
    ({ mode := "RGBA", width := 1, height := 1,
       px := [{ r := 10, g := 20, b := 30, a := 0 }] } : Img).mode = "RGBA" ∧
    supportsTransparency "JPEG" = false ∧
    (transparencyStep
      { mode := "RGBA", width := 1, height := 1,
        px := [{ r := 10, g := 20, b := 30, a := 0 }] } "JPEG" (getrgb "#FFFFFF") =
      composite
        { mode := "RGBA", width := 1, height := 1,
          px := [{ r := 10, g := 20, b := 30, a := 0 }] } (getrgb "#FFFFFF") ∧
     convertStep
      { mode := "RGBA", width := 1, height := 1,
        px := [{ r := 10, g := 20, b := 30, a := 0 }] } "JPEG" (getrgb "#FFFFFF") =
      composite
        { mode := "RGBA", width := 1, height := 1,
          px := [{ r := 10, g := 20, b := 30, a := 0 }] } (getrgb "#FFFFFF")) :=
  ⟨rfl, rfl,
   c1_rgba_composites_before_coercion
     { mode := "RGBA", width := 1, height := 1,
       px := [{ r := 10, g := 20, b := 30, a := 0 }] }
     (getrgb "#FFFFFF") "JPEG" rfl rfl⟩

/-- C2: an RGBA source with a fully transparent pixel at location `i`,
converted with background colour "#FFFFFF" to BMP (the opaque-only
lossless codec), encodes losslessly to the composited raster whose
pixel `i` is pure white; for the lossy opaque-only codec (JPEG) the
raster handed to the encoder is likewise pure white at `i`. -/
theorem c2_transparent_pixel_white (img : Img) (i : Nat) (p : Pixel)
    (hm : img.mode = "RGBA")
    (hwf : img.px.length = img.width * img.height)
    (hp : img.px.get? i = some p) (ha : p.a = 0) :
    save (convertStep img "BMP" (getrgb "#FFFFFF")) "BMP" =
      Except.ok (composite img (getrgb "#FFFFFF")) ∧
    (composite img (getrgb "#FFFFFF")).px.get? i =
      some { r := 255, g := 255, b := 255, a := 255 } ∧
    (convertStep img "JPEG" (getrgb "#FFFFFF")).px.get? i =
      some { r := 255, g := 255, b := 255, a := 255 } := by
  have hbmp := (rgba_composite_steps img (getrgb "#FFFFFF") "BMP" hm rfl).2
  have hjpg := (rgba_composite_steps img (getrgb "#FFFFFF") "JPEG" hm rfl).2
  have hpx := composite_px_get img (getrgb "#FFFFFF") i p hwf hp
  rw [ha] at hpx
  have hwhite : (getrgb "#FFFFFF") = { r := 255, g := 255, b := 255, a := 255 } := by
    decide
  rw [hwhite] at hpx
  simp only [blend_zero_white] at hpx
  refine ⟨?_, hpx, hjpg ▸ hpx⟩
  rw [hbmp]
  simp [save, saveModes, composite, pasteMask, imageNew]

/-- C2 witness: a concrete 1×1 fully transparent RGBA image. -/
theorem c2_transparent_pixel_white_witness :
    (({ mode := "RGBA", width := 1, height := 1,
        px := [{ r := 3, g := 9, b := 27, a := 0 }] } : Img).px.length = 1 * 1) ∧
    (save (convertStep
        { mode := "RGBA", width := 1, height := 1,
          px := [{ r := 3, g := 9, b := 27, a := 0 }] } "BMP" (getrgb "#FFFFFF")) "BMP" =
      Except.ok (composite
        { mode := "RGBA", width := 1, height := 1,
          px := [{ r := 3, g := 9, b := 27, a := 0 }] } (getrgb "#FFFFFF")) ∧
     (composite
        { mode := "RGBA", width := 1, height := 1,
          px := [{ r := 3, g := 9, b := 27, a := 0 }] } (getrgb "#FFFFFF")).px.get? 0 =
      some { r := 255, g := 255, b := 255, a := 255 } ∧
     (convertStep
        { mode := "RGBA", width := 1, height := 1,
          px := [{ r := 3, g := 9, b := 27, a := 0 }] } "JPEG" (getrgb "#FFFFFF")).px.get? 0 =
      some { r := 255, g := 255, b := 255, a := 255 }) :=
  ⟨rfl,
   c2_transparent_pixel_white
     { mode := "RGBA", width := 1, height := 1,
       px := [{ r := 3, g := 9, b := 27, a := 0 }] }
     0 { r := 3, g := 9, b := 27, a := 0 } rfl rfl rfl rfl⟩

/-- C3: percentage mode computes the floors of W·p/100 and H·p/100
(the nonnegative exact quotients make `int(...)` floor division). -/
theorem c3_percentage_floor (W H p : Nat)
    (hp1 : 10 ≤ p) (hp2 : p ≤ 200) (hW : 0 < W) (hH : 0 < H) :
    resizePlan W H (ResizeRequest.percentage p) =
      some (W * p / 100, H * p / 100) := rfl

/-- C3 witness: 800×600 at 50% plans 400×300. -/
theorem c3_percentage_floor_witness :
    (10 ≤ 50 ∧ 50 ≤ 200 ∧ 0 < 800 ∧ 0 < 600) ∧
    resizePlan 800 600 (ResizeRequest.percentage 50) = some (400, 300) :=
  ⟨by norm_num,
   c3_percentage_floor 800 600 50 (by norm_num) (by norm_num)
     (by norm_num) (by norm_num)⟩

/-- C5 (counterexample): the preset keys carry their dimensions in the
name, so the bare name "Thumbnail" is not resolved to a size. -/
theorem c5_preset_counterexample :
    List.lookup "Thumbnail" preset_sizes = none ∧
    List.lookup "Thumbnail" preset_sizes ≠ some (150, 150) := by
  decide

/-- C5 (amended): the preset table is a fixed, closed mapping of
exactly nine named presets whose names carry the dimensions; lookup is
exact: "Thumbnail (150x150)" ↦ (150,150), "HD (1920x1080)" ↦
(1920,1080), "Instagram Square (1080x1080)" ↦ (1080,1080), and a name
outside the table is never resolved to a size. -/
theorem c5_preset_table :
    preset_sizes.length = 9 ∧
    List.lookup "Thumbnail (150x150)" preset_sizes = some (150, 150) ∧
    List.lookup "HD (1920x1080)" preset_sizes = some (1920, 1080) ∧
    List.lookup "Instagram Square (1080x1080)" preset_sizes = some (1080, 1080) ∧
    ∀ name sz, List.lookup name preset_sizes = some sz →
      name ∈ preset_sizes.map Prod.fst := by
  refine ⟨rfl, by decide, by decide, by decide, ?_⟩
  intro name sz hl
  exact List.mem_map_of_mem Prod.fst (lookup_mem hl)

/-- C5 witness: the HD preset is found in the key list. -/
theorem c5_preset_table_witness :
    List.lookup "HD (1920x1080)" preset_sizes = some (1920, 1080) ∧
    "HD (1920x1080)" ∈ preset_sizes.map Prod.fst :=
  ⟨by decide, c5_preset_table.2.2.2.2 "HD (1920x1080)" (1920, 1080) (by decide)⟩

/-- C6: the reported size delta is the signed percentage
((E − L)/L)·100, equivalently E/L·100 − 100 for positive L. -/
theorem c6_size_delta (L E : Nat) (h : 0 < L) :
    size_diff L E = ((E : ℚ) - (L : ℚ)) / (L : ℚ) * 100 ∧
    size_diff L E = (E : ℚ) / (L : ℚ) * 100 - 100 := by
  have hL : (L : ℚ) ≠ 0 := (Nat.cast_pos.mpr h).ne'
  refine ⟨rfl, ?_⟩
  rw [size_diff]
  field_simp
  ring

/-- C6 witness: original 1000 bytes, encoded 1200 bytes report +20%. -/
theorem c6_size_delta_witness : (0 < 1000) ∧ size_diff 1000 1200 = 20 := by
  refine ⟨by norm_num, ?_⟩
  rw [(c6_size_delta 1000 1200 (by norm_num)).1]
  norm_num

/-- C7 (counterexample): a 5×5 source resized to 10% plans the
degenerate size 0×0, so accepted requests do not always produce
positive dimensions. -/
theorem c7_positive_counterexample :
    resizePlan 5 5 (ResizeRequest.percentage 10) = some (0, 0) ∧
    ¬ (0 < (0 : Nat)) := by
  decide

/-- C7 (amended): the planned dimensions are positive provided the
request is not degenerate for the source size: in percentage mode when
W·p ≥ 100 and H·p ≥ 100; in explicit mode with the aspect lock when
W > 0 and w·H ≥ W; in explicit mode without the lock whenever both
fields are ≥ 1; in preset mode always. -/
theorem c7_positive_dims :
    (∀ W H p W2 H2, 100 ≤ W * p → 100 ≤ H * p →
      resizePlan W H (ResizeRequest.percentage p) = some (W2, H2) →
      0 < W2 ∧ 0 < H2) ∧
    (∀ W H w h W2 H2, 0 < W → 0 < w → W ≤ w * H →
      resizePlan W H (ResizeRequest.custom w h true) = some (W2, H2) →
      0 < W2 ∧ 0 < H2) ∧
    (∀ W H w h W2 H2, 0 < w → 0 < h →
      resizePlan W H (ResizeRequest.custom w h false) = some (W2, H2) →
      0 < W2 ∧ 0 < H2) ∧
    (∀ W H name W2 H2,
      resizePlan W H (ResizeRequest.preset name) = some (W2, H2) →
      0 < W2 ∧ 0 < H2) := by
  refine ⟨?_, ?_, ?_, ?_⟩
  · intro W H p W2 H2 hWp hHp heq
    simp only [resizePlan, Option.some.injEq, Prod.mk.injEq] at heq
    obtain ⟨h1, h2⟩ := heq
    subst h1; subst h2
    exact ⟨(Nat.one_le_div_iff (by norm_num)).mpr hWp,
           (Nat.one_le_div_iff (by norm_num)).mpr hHp⟩
  · intro W H w h W2 H2 hW hw hwh heq
    simp only [resizePlan, if_true, Option.some.injEq, Prod.mk.injEq] at heq
    obtain ⟨h1, h2⟩ := heq
    subst h1; subst h2
    exact ⟨hw, (Nat.one_le_div_iff hW).mpr hwh⟩
  · intro W H w h W2 H2 hw hh heq
    simp only [resizePlan, Bool.false_eq_true, if_false, Option.some.injEq,
      Prod.mk.injEq] at heq
    obtain ⟨h1, h2⟩ := heq
    subst h1; subst h2
    exact ⟨hw, hh⟩
  · intro W H name W2 H2 heq
    have hmem := lookup_mem (l := preset_sizes) heq
    simp only [preset_sizes, List.mem_cons, List.not_mem_nil, or_false,
      Prod.mk.injEq] at hmem
    rcases hmem with ⟨-, h⟩|⟨-, h⟩|⟨-, h⟩|⟨-, h⟩|⟨-, h⟩|⟨-, h⟩|⟨-, h⟩|⟨-, h⟩|⟨-, h⟩ <;>
      (obtain ⟨h1, h2⟩ := Prod.mk.injEq .. ▸ h; omega)

/-- C7 witness: the percentage part applied to 800×600 at 50%. -/
theorem c7_positive_dims_witness :
    (100 ≤ 800 * 50 ∧ 100 ≤ 600 * 50) ∧ (0 < 400 ∧ 0 < 300) :=
  ⟨by norm_num,
   c7_positive_dims.1 800 600 50 400 300 (by norm_num) (by norm_num) (by decide)⟩

/-- C8 (counterexample): the zero-length original does not surface a
distinct division-by-zero error — a zero-byte upload is never decodable,
so it fails at `Image.open` before the handler, yielding exactly the
same decode failure as corrupt image bytes rather than the claimed
distinct error from the size-delta division. -/
theorem c8_zero_length_counterexample :
    convertAction
      (some { mode := "RGB", width := 1, height := 1,
              px := [{ r := 1, g := 2, b := 3, a := 255 }] })
      "PNG" (getrgb "#FFFFFF") 0 900 = ConvertOutcome.decodeError ∧
    convertAction none "PNG" (getrgb "#FFFFFF") 0 900 =
      ConvertOutcome.decodeError ∧
    convertAction
      (some { mode := "RGB", width := 1, height := 1,
              px := [{ r := 1, g := 2, b := 3, a := 255 }] })
      "PNG" (getrgb "#FFFFFF") 0 900 ≠
      ConvertOutcome.handlerError
        "An error occurred during conversion: division by zero" := by
  refine ⟨rfl, rfl, ?_⟩
  decide

/-- C8 (amended): corrupt image bytes and an unsupported target/source
combination each surface a recoverable error without crashing (the flow
is a total function into outcome values), distinct from one another,
and no output bytes are returned; a zero-length original fails at
decode before the handler — the same decode failure as corrupt bytes —
so the division by zero in the size-delta computation is unreachable,
and a zero-length original likewise never returns output. -/
theorem c8_failure_modes :
    (∀ t bg L E, convertAction none t bg L E = ConvertOutcome.decodeError) ∧
    convertAction
      (some { mode := "LA", width := 1, height := 1,
              px := [{ r := 7, g := 7, b := 7, a := 0 }] })
      "BMP" (getrgb "#FFFFFF") 1000 900 =
      ConvertOutcome.handlerError
        "An error occurred during conversion: cannot write mode LA as BMP" ∧
    (∀ d t bg E, convertAction d t bg 0 E = ConvertOutcome.decodeError) ∧
    ConvertOutcome.decodeError ≠
      ConvertOutcome.handlerError
        "An error occurred during conversion: cannot write mode LA as BMP" ∧
    (∀ d t bg E, isOutput (convertAction d t bg 0 E) = false) ∧
    (∀ t bg L E, isOutput (convertAction none t bg L E) = false) ∧
    isOutput (ConvertOutcome.handlerError
      "An error occurred during conversion: cannot write mode LA as BMP") = false := by
  have hcorrupt : ∀ (t : String) (bg : Pixel) (L E : Nat),
      convertAction none t bg L E = ConvertOutcome.decodeError := by
    intro t bg L E
    unfold convertAction
    split <;> rfl
  have hzero : ∀ (d : Option Img) (t : String) (bg : Pixel) (E : Nat),
      convertAction d t bg 0 E = ConvertOutcome.decodeError := by
    intro d t bg E
    rfl
  refine ⟨hcorrupt, by decide, hzero, by decide, ?_, ?_, rfl⟩
  · intro d t bg E
    rw [hzero]
    rfl
  · intro t bg L E
    rw [hcorrupt]
    rfl

/-- C9: the "white" simple background effect is the identity on every
image whose pixel mode is not RGBA. -/
theorem c9_white_effect_identity (blurFn : Img → Img) (img : Img)
    (h : img.mode ≠ "RGBA") :
    apply_simple_background_effect blurFn img "white" = img := by
  simp [apply_simple_background_effect, h]

/-- C9 witness: a concrete 1×1 L-mode image is returned unchanged. -/
theorem c9_white_effect_identity_witness :
    ({ mode := "L", width := 1, height := 1,
       px := [{ r := 5, g := 5, b := 5, a := 255 }] } : Img).mode ≠ "RGBA" ∧
    apply_simple_background_effect id
      { mode := "L", width := 1, height := 1,
        px := [{ r := 5, g := 5, b := 5, a := 255 }] } "white" =
      { mode := "L", width := 1, height := 1,
        px := [{ r := 5, g := 5, b := 5, a := 255 }] } :=
  ⟨by decide,
   c9_white_effect_identity id
     { mode := "L", width := 1, height := 1,
       px := [{ r := 5, g := 5, b := 5, a := 255 }] } (by decide)⟩

/-- C10: when converting to JPEG the raster handed to the encoder is
the mode coercion of the (possibly composited) image; the coercion
leaves mode-RGB and mode-L rasters untouched, and coerces any other
mode to RGB via convert("RGB"). -/
theorem c10_jpeg_mode_coercion (img : Img) (bg : Pixel) :
    convertStep img "JPEG" bg =
      modeCoercion (transparencyStep img "JPEG" bg) "JPEG" ∧
    (∀ conv : Img, conv.mode = "RGB" ∨ conv.mode = "L" →
      modeCoercion conv "JPEG" = conv) ∧
    (∀ conv : Img, conv.mode ≠ "RGB" → conv.mode ≠ "L" →
      modeCoercion conv "JPEG" = convertRGB conv ∧
      (modeCoercion conv "JPEG").mode = "RGB") := by
  refine ⟨rfl, ?_, ?_⟩
  · intro conv hc
    rcases hc with hc | hc <;> simp [modeCoercion, hc]
  · intro conv h1 h2
    constructor <;> simp [modeCoercion, convertRGB, h1, h2]

/-- C10 witness: an RGB raster passes untouched, a P-mode raster is
coerced to RGB. -/
theorem c10_jpeg_mode_coercion_witness :
    modeCoercion { mode := "RGB", width := 1, height := 1,
                   px := [{ r := 1, g := 2, b := 3, a := 255 }] } "JPEG" =
      { mode := "RGB", width := 1, height := 1,
        px := [{ r := 1, g := 2, b := 3, a := 255 }] } ∧
    (modeCoercion { mode := "P", width := 1, height := 1,
                    px := [{ r := 4, g := 5, b := 6, a := 255 }] } "JPEG" =
      convertRGB { mode := "P", width := 1, height := 1,
                   px := [{ r := 4, g := 5, b := 6, a := 255 }] } ∧
     (modeCoercion { mode := "P", width := 1, height := 1,
                     px := [{ r := 4, g := 5, b := 6, a := 255 }] } "JPEG").mode =
      "RGB") :=
  ⟨(c10_jpeg_mode_coercion
      { mode := "RGB", width := 1, height := 1,
        px := [{ r := 1, g := 2, b := 3, a := 255 }] }
      { r := 255, g := 255, b := 255, a := 255 }).2.1
    { mode := "RGB", width := 1, height := 1,
      px := [{ r := 1, g := 2, b := 3, a := 255 }] } (Or.inl rfl),
   (c10_jpeg_mode_coercion
      { mode := "P", width := 1, height := 1,
        px := [{ r := 4, g := 5, b := 6, a := 255 }] }
      { r := 255, g := 255, b := 255, a := 255 }).2.2
    { mode := "P", width := 1, height := 1,
      px := [{ r := 4, g := 5, b := 6, a := 255 }] } (by decide) (by decide)⟩

end ImageApp
